import Mathlib

/-!
Shallow embedding of the session / request-authorization subsystem of the
repository (an Angular movie application).  The definitions below are
translated from:

  * `src/services/auth.service.ts`    — `AuthService` (token storage, refresh
    coordinator, session state, initialization);
  * `src/services/auth.interceptor.ts` — `authInterceptor`, `isPublic`;
  * `src/services/watchlist.service.ts` — optimistic add / remove;
  * `src/services/rating.service.ts`  — `rateMovie` input validation.

Modelling conventions:
  * `localStorage` is modelled as the four `stored*` fields of `AuthState`
    (the four keys the service uses).  `Option` is `null`-or-absent.
  * JavaScript string coercions are made explicit: `Storage.setItem` applied
    to `undefined` stores the string "undefined" (`jsUndef`), and a template
    literal renders `null` as "null" (`jsNull`).
  * Network calls are not performed; each operation takes the outcome of the
    network request it would issue as an explicit `Except` argument and the
    number of requests actually issued is returned where a claim needs it.
  * The runtime is single-threaded and event-driven, so an interleaving of
    asynchronous callbacks is modelled as an explicit sequence of state
    transitions.
-/

namespace MovieApp

/-- An HTTP error as observed through Angular `HttpErrorResponse`: the status
code plus an identity tag so that distinct error objects can be told apart. -/
structure HttpErr where
  status : Int
  tag : String
deriving Repr, DecidableEq

/-- A JavaScript error value: either an HTTP error response or a plain
`Error(message)`. -/
inductive JsError where
  | http (e : HttpErr)
  | plain (msg : String)
deriving Repr, DecidableEq

/-- `TokenResponse` from `auth.service.ts`.  The TypeScript interface declares
`refresh_token : string`, but at runtime a JSON response may omit the field,
so it is embedded as `Option String` (`none` = the field is `undefined`).
`expires_in` is seconds until expiry. -/
structure TokenResponse where
  access_token : String
  refresh_token : Option String
  expires_in : Int
deriving Repr, DecidableEq

/-- JavaScript coercion used by `Storage.setItem`: storing `undefined` under a
key stores the string "undefined". -/
def jsUndef : Option String → String
  | none => "undefined"
  | some s => s

/-- JavaScript template-literal coercion: interpolating `null` yields the
string "null". -/
def jsNull : Option String → String
  | none => "null"
  | some s => s

/-- The mutable state owned by `AuthService`: the four `localStorage` entries
(under the `STORAGE_KEYS` prefix), the signals, and the single-flight refresh
bookkeeping (`isRefreshing` flag and the current value of
`refreshTokenSubject`, a `BehaviorSubject<string | null>`). -/
structure AuthState where
  storedAccess : Option String
  storedRefresh : Option String
  storedExpiry : Option Int
  storedProfile : Option String
  currentUser : Option String
  isLoggedIn : Bool
  errorSig : Option String
  isRefreshing : Bool
  subjectVal : Option String
deriving Repr, DecidableEq

/-- `AuthService.storeTokens`: writes the access token, writes
`response.refresh_token` unconditionally (an absent field is coerced to the
string "undefined" by `setItem`), and stores
`Date.now() + (expires_in - 30) * 1000` as the expiry. -/
def storeTokens (st : AuthState) (r : TokenResponse) (now : Int) : AuthState :=
  { st with
    storedAccess := some r.access_token
    storedRefresh := some (jsUndef r.refresh_token)
    storedExpiry := some (now + (r.expires_in - 30) * 1000) }

/-- `AuthService.clearAuthState`: removes the four storage entries and resets
the user, login and error signals.  It does not touch the refresh
bookkeeping. -/
def clearAuthState (st : AuthState) : AuthState :=
  { st with
    storedAccess := none
    storedRefresh := none
    storedExpiry := none
    storedProfile := none
    currentUser := none
    isLoggedIn := false
    errorSig := none }

/-- The `isAuthenticated` computed signal:
`isLoggedIn() && currentUser() !== null`. -/
def isAuthenticated (st : AuthState) : Bool :=
  st.isLoggedIn && st.currentUser.isSome

/-- `AuthService.isTokenExpired`: `true` when no expiry is stored, otherwise
`Date.now() >= parseInt(expiry)`. -/
def isTokenExpired (st : AuthState) (now : Int) : Bool :=
  match st.storedExpiry with
  | none => true
  | some e => decide (e ≤ now)

/-- All session state gone: the four storage entries removed and the in-memory
signals reset, as left by `clearAuthState`. -/
def sessionCleared (st : AuthState) : Bool :=
  st.storedAccess.isNone && st.storedRefresh.isNone && st.storedExpiry.isNone &&
    st.storedProfile.isNone && st.currentUser.isNone && !st.isLoggedIn

/-- How a call to `AuthService.refreshToken` enters the coordinator. -/
inductive RefreshEntry where
  | noToken       -- no stored refresh token: fail at once, clear the session
  | waiter        -- a refresh is in flight: subscribe to the subject
  | startNetwork  -- this caller issues the network refresh request
deriving Repr, DecidableEq, BEq

/-- The synchronous prefix of `AuthService.refreshToken` (lines 252-276):
reads the stored refresh token; absent ⇒ clear state and throw; a refresh
already in flight ⇒ register on the subject; otherwise mark in flight, reset
the subject to `null`, and issue the network call. -/
def refreshTokenEnter (st : AuthState) : RefreshEntry × AuthState :=
  match st.storedRefresh with
  | none => (.noToken, clearAuthState st)
  | some _ =>
    if st.isRefreshing then (.waiter, st)
    else (.startNetwork, { st with isRefreshing := true, subjectVal := none })

/-- Completion of the in-flight refresh network call (lines 278-291):
on success, persist the tokens, drop the in-flight flag and publish the new
access token on the subject; on failure, drop the flag, publish the empty
string (the failure sentinel), clear the session and navigate to `/auth`. -/
def refreshComplete (st : AuthState) (now : Int)
    (res : Except HttpErr TokenResponse) : AuthState :=
  match res with
  | .ok r =>
      { storeTokens st r now with isRefreshing := false,
                                  subjectVal := some r.access_token }
  | .error _ =>
      clearAuthState { st with isRefreshing := false, subjectVal := some "" }

/-- What a waiter subscribed to `refreshTokenSubject` observes once a non-null
value is published: the empty string signals failure
(`Token refresh failed`), any other value is the new access token. -/
def waiterOutcome (v : String) : Option String :=
  if v = "" then none else some v

/-- `n` callers invoke `refreshToken` back-to-back on the single-threaded
event loop (none of the network completions has run yet).  Returns each
caller's entry mode and the resulting state. -/
def processCallers : Nat → AuthState → List RefreshEntry × AuthState
  | 0, st => ([], st)
  | n + 1, st =>
    let (e, st1) := refreshTokenEnter st
    let (es, st2) := processCallers n st1
    (e :: es, st2)

/-- A complete refresh round: `n` callers arrive, then the single network
call (if any) completes with `res`.  Returns the entry modes, the final
state, and the outcome observed by each caller in arrival order
(`some token` = success with that access token, `none` = failure). -/
def roundOutcomes (n : Nat) (st : AuthState) (now : Int)
    (res : Except HttpErr TokenResponse) :
    List RefreshEntry × AuthState × List (Option String) :=
  let (es, st1) := processCallers n st
  let st2 := refreshComplete st1 now res
  let outs := es.map (fun e =>
    match e with
    | .noToken => none
    | .startNetwork =>
        match res with
        | .ok r => some r.access_token
        | .error _ => none
    | .waiter => waiterOutcome (st2.subjectVal.getD ""))
  (es, st2, outs)

/-- A full call to `AuthService.refreshToken`, as observed by a caller that
subscribes to the returned observable.  `netRes` is the outcome of the single
in-flight network request (for a `waiter`, that is the request started by the
caller it joined).  Returns the result delivered to the subscriber, the state
after all callbacks ran, and the number of network refresh requests this call
itself issued. -/
def refreshTokenRun (st : AuthState) (now : Int)
    (netRes : Except HttpErr TokenResponse) :
    Except JsError TokenResponse × AuthState × Nat :=
  match refreshTokenEnter st with
  | (.noToken, st1) => (.error (.plain "No refresh token available"), st1, 0)
  | (.waiter, st1) =>
      -- The waiter resolves from the subject once the in-flight call ends.
      -- It receives the bare object { access_token: token } cast to
      -- TokenResponse; the other fields are never read downstream.
      let st2 := refreshComplete st1 now netRes
      match waiterOutcome (st2.subjectVal.getD "") with
      | none => (.error (.plain "Token refresh failed"), st2, 0)
      | some t =>
          (.ok { access_token := t, refresh_token := none, expires_in := 0 },
           st2, 0)
  | (.startNetwork, st1) =>
      let st2 := refreshComplete st1 now netRes
      match netRes with
      | .ok r => (.ok r, st2, 1)
      | .error e => (.error (.http e), st2, 1)

/-- `AuthService.logout`: best-effort server logout (errors ignored, state not
affected), then `clearAuthState` and navigation to `/auth`. -/
def logoutRun (st : AuthState) : AuthState :=
  clearAuthState st

/-- `AuthService.fetchUserProfile`: on success stores the mapped profile in
memory and in `localStorage`; on a 401 failure clears the session; the error
is rethrown either way.  Profiles are modelled as opaque strings that are
already parsed (the service only stores profiles it serialized itself). -/
def fetchUserProfileRun (st : AuthState) (res : Except HttpErr String) :
    AuthState × Except HttpErr String :=
  match res with
  | .ok u => ({ st with currentUser := some u, storedProfile := some u }, .ok u)
  | .error e =>
      (if e.status = 401 then clearAuthState st else st, .error e)

/-- Which branch of `initializeAuthState` ran. -/
inductive InitPath where
  | noSession  -- token, profile or expiry missing: nothing happens
  | valid      -- expiry in the future: restore, background profile fetch
  | expired    -- expiry in the past: optimistic restore, then refresh chain
deriving Repr, DecidableEq

/-- The synchronous part of `AuthService.initializeAuthState`: reads the three
storage entries; when all are present it restores the cached profile and sets
`isLoggedIn` whether or not the expiry has passed (in the expired branch this
is the deliberate optimistic restore), and reports which asynchronous
continuation was started. -/
def initSync (st : AuthState) (now : Int) : AuthState × InitPath :=
  match st.storedAccess, st.storedProfile, st.storedExpiry with
  | some _, some u, some e =>
      if now < e then
        ({ st with currentUser := some u, isLoggedIn := true }, .valid)
      else
        ({ st with currentUser := some u, isLoggedIn := true }, .expired)
  | _, _, _ => (st, .noSession)

/-- The asynchronous continuation of the expired branch:
`refreshToken().pipe(switchMap(() => fetchUserProfile())).subscribe({ error:
() => clearAuthState() })`.  Returns the settled state and the number of
network refresh requests issued. -/
def initExpiredComplete (st : AuthState) (now : Int)
    (netRefresh : Except HttpErr TokenResponse)
    (netProfile : Except HttpErr String) : AuthState × Nat :=
  let (res, st1, k) := refreshTokenRun st now netRefresh
  match res with
  | .ok _ =>
      let (st2, pres) := fetchUserProfileRun st1 netProfile
      match pres with
      | .ok _ => (st2, k)
      | .error _ => (clearAuthState st2, k)
  | .error _ => (clearAuthState st1, k)

/-- `AuthService.initializeAuthState`, run to quiescence: the synchronous
restore followed by the asynchronous continuation of whichever branch was
taken.  `netRefresh` / `netProfile` are the outcomes of the network requests
the continuation issues (unused when the branch issues none).  Returns the
final state and the number of network refresh requests issued. -/
def initializeAuthState (st : AuthState) (now : Int)
    (netRefresh : Except HttpErr TokenResponse)
    (netProfile : Except HttpErr String) : AuthState × Nat :=
  match initSync st now with
  | (st1, .expired) => initExpiredComplete st1 now netRefresh netProfile
  | (st1, .valid) => ((fetchUserProfileRun st1 netProfile).1, 0)
  | (st1, .noSession) => (st1, 0)

/-! ### Authorization interceptor (`auth.interceptor.ts`)

Requests are modelled at the path level: `extractPath` in the source returns
`new URL(url).pathname` for absolute URLs and the input unchanged otherwise;
this application issues relative URLs (`environment.apiBaseUrl` is the empty
string), so the interceptor sees paths directly. -/

/-- `sub` occurs somewhere in `s` (JavaScript `String.includes`, over the
character lists). -/
def listHasSub (s sub : List Char) : Bool :=
  match s with
  | [] => sub.isEmpty
  | _ :: rest => sub.isPrefixOf s || listHasSub rest sub

/-- JavaScript `String.includes`. -/
def strHasSub (s sub : String) : Bool :=
  listHasSub s.data sub.data

/-- JavaScript `String.endsWith`. -/
def strEndsWith (s sfx : String) : Bool :=
  sfx.data.isSuffixOf s.data

/-- JavaScript `String.startsWith`. -/
def strStartsWith (s p : String) : Bool :=
  p.data.isPrefixOf s.data

/-- JavaScript `String.split(sep)` for a one-character separator. -/
def splitCharAux (sep : Char) : List Char → List Char → List String
  | [], acc => [String.mk acc.reverse]
  | c :: cs, acc =>
      if c = sep then String.mk acc.reverse :: splitCharAux sep cs []
      else splitCharAux sep cs (c :: acc)

/-- `path.split(sep)`. -/
def splitChar (sep : Char) (s : String) : List String :=
  splitCharAux sep s.data []

/-- The string is a nonempty run of decimal digits (regex `\d+` anchored to a
whole path segment). -/
def isDigits (s : String) : Bool :=
  !s.data.isEmpty && s.data.all Char.isDigit

/-- `PUBLIC_ENDPOINTS` from the interceptor. -/
def PUBLIC_ENDPOINTS : List String :=
  ["/api/users/login", "/api/users/register", "/api/users/refresh",
   "/api/users/search", "/api/users/all", "/api/movies/trending",
   "/api/movies/popular", "/api/movies/random", "/api/movies/search"]

/-- `AUTHENTICATED_ENDPOINTS` from the interceptor. -/
def AUTHENTICATED_ENDPOINTS : List String :=
  ["/api/users/me", "/api/users/logout", "/api/users/2fa/status",
   "/api/users/2fa/enable", "/api/users/2fa/verify", "/api/users/2fa/disable"]

/-- `PUBLIC_PATTERNS`: the five anchored regular expressions, decided on the
segment decomposition of the path (`[^/]+` = one nonempty slash-free segment,
`\d+` = one nonempty digit segment). -/
def matchesPublicPattern (path : String) : Bool :=
  match splitChar '/' path with
  | ["", "api", "users", u, "followers"] => decide (u ≠ "")
  | ["", "api", "users", u, "following"] => decide (u ≠ "")
  | ["", "api", "movies", d] => isDigits d
  | ["", "api", "movies", d, "similar"] => isDigits d
  | ["", "api", "ratings", "movie", d, "average"] => isDigits d
  | _ => false

/-- `reservedUserPaths` from the interceptor. -/
def reservedUserPaths : List String :=
  ["me", "login", "register", "refresh", "logout", "search"]

/-- The `/api/users/{username}` public-profile special case: the path is a
single segment under `/api/users/` whose last segment is not reserved and
does not start with `follow` or `unfollow`. -/
def isPublicUserProfile (path : String) : Bool :=
  match splitChar '/' path with
  | ["", "api", "users", seg] =>
      decide (seg ≠ "") && !(reservedUserPaths.contains seg) &&
        !(strStartsWith seg "follow") && !(strStartsWith seg "unfollow")
  | _ => false

/-- `isPublic` from the interceptor, on the extracted path. -/
def isPublic (path : String) : Bool :=
  if AUTHENTICATED_ENDPOINTS.any (fun e => strEndsWith path e) then false
  else if PUBLIC_ENDPOINTS.any (fun e => strHasSub path e) then true
  else if matchesPublicPattern path then true
  else if isPublicUserProfile path then true
  else if strStartsWith path "/api/movies/" && !(strHasSub path "watchlist")
    then true
  else false

/-- An outgoing request: its path and its `Authorization` header, if any. -/
structure Req where
  url : String
  authHeader : Option String
deriving Repr, DecidableEq

/-- The request-mutation phase of `authInterceptor`: the bearer header is
attached only when an access token is stored AND the endpoint is not public
(the comment in the source explains that the gateway would 401 on a stale
token even for public endpoints). -/
def interceptRequest (req : Req) (token : Option String) : Req :=
  match token with
  | some t =>
      if !(isPublic req.url) then
        { req with authHeader := some ("Bearer " ++ t) }
      else req
  | none => req

/-- The interceptor treats login, registration and refresh as auth endpoints
(`req.url.includes(...)`) and never refreshes for them. -/
def isAuthEndpoint (url : String) : Bool :=
  strHasSub url "/api/users/login" || strHasSub url "/api/users/register" ||
    strHasSub url "/api/users/refresh"

/-- What the interceptor delivers to the calling subscriber. -/
inductive InterceptOutcome where
  | ok (body : String)
  | err (e : JsError)
deriving Repr, DecidableEq

/-- The error-handling phase of `authInterceptor` (lines 113-143), entered
when the initial send of `req` failed with `error`.  On a 401 for a non-auth
endpoint while `isLoggedIn()`, it runs `refreshToken()` (whose network
outcome is `refreshNet`), retries the original request once with the freshly
stored token (outcome `retryRes`), and its `catchError` — which wraps both
the refresh and the retry — logs the user out and propagates whatever error
reached it.  Returns the delivered outcome, the list of retried requests,
and the final auth state. -/
def handle401 (req : Req) (error : HttpErr) (st : AuthState) (now : Int)
    (refreshNet : Except HttpErr TokenResponse)
    (retryRes : Except HttpErr String) :
    InterceptOutcome × List Req × AuthState :=
  if error.status = 401 && !(isAuthEndpoint req.url) && st.isLoggedIn then
    let (res, st1, _) := refreshTokenRun st now refreshNet
    match res with
    | .ok _ =>
        let retryReq :=
          { req with authHeader := some ("Bearer " ++ jsNull st1.storedAccess) }
        match retryRes with
        | .ok body => (.ok body, [retryReq], st1)
        | .error e2 => (.err (.http e2), [retryReq], logoutRun st1)
    | .error je => (.err je, [], logoutRun st1)
  else (.err (.http error), [], st)

/-! ### Watchlist service (`watchlist.service.ts`)

A `MovieSummary` is represented by its `tmdbId`: the optimistic-toggle logic
reads and writes nothing else of it.  `_watchlistMovies` is the list of ids,
`_watchlistIds` the lookup `Set`. -/

/-- The signal state of `WatchlistService`. -/
structure WatchlistState where
  movies : List Nat
  ids : Finset Nat
  errorSig : Option String
deriving DecidableEq

/-- The optimistic step of `addToWatchlist`:
`_watchlistIds.update(ids => new Set([...ids, tmdbId]))`. -/
def addOptimistic (x : Nat) (st : WatchlistState) : WatchlistState :=
  { st with ids := insert x st.ids }

/-- The rollback in the error path of `addToWatchlist`: delete the id from
the current set and set the error signal. -/
def addRollback (x : Nat) (st : WatchlistState) : WatchlistState :=
  { st with ids := st.ids.erase x,
            errorSig := some "Failed to add to watchlist" }

/-- The optimistic step of `removeFromWatchlist`: snapshot `previousMovies`
from the movies signal, drop the movie from the list, delete the id from the
set.  Returns the snapshot together with the new state. -/
def removeOptimistic (x : Nat) (st : WatchlistState) :
    List Nat × WatchlistState :=
  (st.movies,
   { st with movies := st.movies.filter (fun m => m ≠ x),
             ids := st.ids.erase x })

/-- The rollback in the error path of `removeFromWatchlist`: restore the
movies list from the snapshot and rebuild the id set from that snapshot
(`new Set(previousMovies.map(m => m.tmdbId))`). -/
def removeRollback (prevMovies : List Nat) (st : WatchlistState) :
    WatchlistState :=
  { st with movies := prevMovies,
            ids := prevMovies.toFinset,
            errorSig := some "Failed to remove from watchlist" }

/-- A single `addToWatchlist(x)` call run to settlement of its POST request
(`netRes`).  On success the tap fires a notification and starts an
asynchronous `fetchWatchlist` whose response has not arrived yet; on failure
the rollback runs and the error is rethrown to the subscriber. -/
def addToWatchlist (x : Nat) (st : WatchlistState)
    (netRes : Except HttpErr Unit) : WatchlistState × Except HttpErr Unit :=
  let st1 := addOptimistic x st
  match netRes with
  | .ok _ => (st1, .ok ())
  | .error e => (addRollback x st1, .error e)

/-- The overlapping-toggle event sequence of the spec, §4.5 / §8: on the
single-threaded event loop, `addToWatchlist x` applies its optimistic step;
before its POST settles, `removeFromWatchlist x` applies its optimistic step
(snapshotting the movies signal); then the add request settles successfully
(notification plus an asynchronous re-fetch that has not resolved); then the
remove request fails and its rollback runs.  Returns the state right after
that rollback. -/
def overlapToggleTrace (x : Nat) (st0 : WatchlistState) : WatchlistState :=
  let st1 := addOptimistic x st0
  let (prev, st2) := removeOptimistic x st1
  -- add settles successfully: no synchronous state change
  removeRollback prev st2

/-! ### Rating service (`rating.service.ts`) -/

/-- `Map.set` on the association-list model of `Map<number, number>`:
replace the binding if the key is present, otherwise append it. -/
def mapSet : List (Nat × Int) → Nat → Int → List (Nat × Int)
  | [], k, v => [(k, v)]
  | (k0, v0) :: rest, k, v =>
      if k0 = k then (k, v) :: rest else (k0, v0) :: mapSet rest k v

/-- The signal state of `RatingService`. -/
structure RatingState where
  userRatings : List (Nat × Int)
  ratingsMap : List (Nat × Int)
  isLoading : Bool
  errorSig : Option String
deriving Repr, DecidableEq

/-- What the observable returned by `rateMovie` does for its subscriber. -/
inductive RateEmit where
  | value            -- emitted a value and completed (`of(undefined)` or POST ok)
  | errored (e : HttpErr)
deriving Repr, DecidableEq

/-- `RatingService.rateMovie` run to settlement.  A score outside `1..5` sets
the error signal, raises an error notification and returns `of(undefined)`
without touching the network or the cached state.  Otherwise the POST is
issued (`netRes`); on success the cached map is updated and an asynchronous
full re-fetch starts (not yet resolved); on failure the error signal is set
and the error is rethrown.  Returns the new state, what the subscriber
observes, and the number of HTTP requests issued. -/
def rateMovie (tmdbId : Nat) (score : Int) (st : RatingState)
    (netRes : Except HttpErr Unit) : RatingState × RateEmit × Nat :=
  if score < 1 || 5 < score then
    ({ st with errorSig := some "Rating must be between 1 and 5" }, .value, 0)
  else
    let st1 := { st with isLoading := true, errorSig := none }
    match netRes with
    | .ok _ =>
        ({ st1 with ratingsMap := mapSet st1.ratingsMap tmdbId score,
                    isLoading := false }, .value, 1)
    | .error e =>
        ({ st1 with errorSig := some "Failed to submit rating",
                    isLoading := false }, .errored e, 1)

/-! ### Concrete fixtures -/

/-- A logged-in session state with a stored refresh token and no refresh in
flight. -/
def sessionSt : AuthState :=
  { storedAccess := some "AT", storedRefresh := some "RT",
    storedExpiry := some 0, storedProfile := some "alice",
    currentUser := some "alice", isLoggedIn := true, errorSig := none,
    isRefreshing := false, subjectVal := none }

/-- Storage contents at process start holding a session whose expiry is in
the past (epoch 0). -/
def bootSt : AuthState :=
  { storedAccess := some "AT", storedRefresh := some "RT",
    storedExpiry := some 0, storedProfile := some "alice",
    currentUser := none, isLoggedIn := false, errorSig := none,
    isRefreshing := false, subjectVal := none }

/-- A concrete successful token response. -/
def tokC : TokenResponse :=
  { access_token := "NEW", refresh_token := some "R2", expires_in := 300 }

/-- The refresh network outcome is either a failure or a success whose access
token is nonempty (the empty string is the failure sentinel the service
reserves on its subject). -/
def okTokenNonempty : Except HttpErr TokenResponse → Bool
  | .ok r => !(r.access_token == "")
  | .error _ => true

/-! ### Helper lemmas -/

/-- Entering the coordinator while a refresh is in flight registers the
caller as a waiter and changes nothing. -/
theorem refreshTokenEnter_inflight (st : AuthState) (rt : String)
    (hrt : st.storedRefresh = some rt) (hfl : st.isRefreshing = true) :
    refreshTokenEnter st = (.waiter, st) := by
  simp [refreshTokenEnter, hrt, hfl]

/-- Entering the coordinator with a stored refresh token and no refresh in
flight starts the single network call. -/
theorem refreshTokenEnter_start (st : AuthState) (rt : String)
    (hrt : st.storedRefresh = some rt) (hfl : st.isRefreshing = false) :
    refreshTokenEnter st =
      (.startNetwork, { st with isRefreshing := true, subjectVal := none }) := by
  simp [refreshTokenEnter, hrt, hfl]

/-- While a refresh is in flight every arriving caller is a waiter and the
state is unchanged. -/
theorem processCallers_inflight (n : Nat) (st : AuthState) (rt : String)
    (hrt : st.storedRefresh = some rt) (hfl : st.isRefreshing = true) :
    processCallers n st = (List.replicate n .waiter, st) := by
  induction n with
  | zero => rfl
  | succ k ih =>
      simp [processCallers, refreshTokenEnter_inflight st rt hrt hfl, ih,
        List.replicate_succ]

/-- Clearing the auth state establishes `sessionCleared`. -/
theorem sessionCleared_clearAuthState (st : AuthState) :
    sessionCleared (clearAuthState st) = true := rfl

/-! ### Claims -/

/-- C3, counterexample: a refresh success whose response carries a new access
token but no refresh token does not preserve the previously stored refresh
token `"RT"`: the success path overwrites it with the string "undefined"
(the `setItem` coercion of the absent field). -/
theorem c3_counterexample :
    (refreshComplete sessionSt 0
        (.ok { access_token := "AT_NEW", refresh_token := none,
               expires_in := 300 })).storedRefresh ≠ sessionSt.storedRefresh ∧
    (refreshComplete sessionSt 0
        (.ok { access_token := "AT_NEW", refresh_token := none,
               expires_in := 300 })).storedRefresh = some "undefined" := by
  constructor
  · decide
  · rfl

/-- C3, amended: the success path of the refresh operation unconditionally
overwrites the stored refresh token with the refresh-token field of the
response (coerced to the string "undefined" when the field is absent), and
stores the new access token; the prior refresh token is never consulted. -/
theorem c3_refresh_token_overwrite (st : AuthState) (now : Int)
    (r : TokenResponse) :
    (refreshComplete st now (.ok r)).storedRefresh =
        some (jsUndef r.refresh_token) ∧
    (refreshComplete st now (.ok r)).storedAccess = some r.access_token := by
  exact ⟨rfl, rfl⟩

/-- C4: calling the refresh operation with no stored refresh token fails at
once with the no-refresh-token error, issues no network request, and clears
the whole session (storage entries, cached user, login flag and error
signal). -/
theorem c4_no_refresh_token (st : AuthState) (now : Int)
    (net : Except HttpErr TokenResponse) (h : st.storedRefresh = none) :
    (refreshTokenRun st now net).1 =
        .error (.plain "No refresh token available") ∧
    (refreshTokenRun st now net).2.2 = 0 ∧
    sessionCleared (refreshTokenRun st now net).2.1 = true ∧
    (refreshTokenRun st now net).2.1.errorSig = none := by
  simp [refreshTokenRun, refreshTokenEnter, h, sessionCleared, clearAuthState]

/-- C4, witness at a state holding only an access token. -/
theorem c4_no_refresh_token_witness :
    ({ storedAccess := some "AT", storedRefresh := none, storedExpiry := some 9,
       storedProfile := some "alice", currentUser := some "alice",
       isLoggedIn := true, errorSig := none, isRefreshing := false,
       subjectVal := none : AuthState }).storedRefresh = none ∧
    ((refreshTokenRun
        { storedAccess := some "AT", storedRefresh := none,
          storedExpiry := some 9, storedProfile := some "alice",
          currentUser := some "alice", isLoggedIn := true, errorSig := none,
          isRefreshing := false, subjectVal := none } 50 (.error ⟨500, "x"⟩)).1 =
          .error (.plain "No refresh token available") ∧
      (refreshTokenRun
        { storedAccess := some "AT", storedRefresh := none,
          storedExpiry := some 9, storedProfile := some "alice",
          currentUser := some "alice", isLoggedIn := true, errorSig := none,
          isRefreshing := false, subjectVal := none } 50 (.error ⟨500, "x"⟩)).2.2 = 0 ∧
      sessionCleared (refreshTokenRun
        { storedAccess := some "AT", storedRefresh := none,
          storedExpiry := some 9, storedProfile := some "alice",
          currentUser := some "alice", isLoggedIn := true, errorSig := none,
          isRefreshing := false, subjectVal := none } 50 (.error ⟨500, "x"⟩)).2.1 = true ∧
      (refreshTokenRun
        { storedAccess := some "AT", storedRefresh := none,
          storedExpiry := some 9, storedProfile := some "alice",
          currentUser := some "alice", isLoggedIn := true, errorSig := none,
          isRefreshing := false, subjectVal := none } 50 (.error ⟨500, "x"⟩)).2.1.errorSig = none) :=
  ⟨rfl, c4_no_refresh_token _ 50 (.error ⟨500, "x"⟩) rfl⟩

/-- C5 (code bug): overlapping toggles on movie 7 starting from an empty
watchlist — add applies its optimistic step, remove applies its optimistic
step (snapshotting the movies signal), the add request then settles
successfully and the remove request fails — leave the membership set empty:
the remove rollback rebuilds the id set from the movies snapshot, which the
add optimistic step never touched, so 7 is absent although the claim (and
the server, where the add succeeded and the remove failed) has it present. -/
theorem c5_overlap_toggle_bug :
    (overlapToggleTrace 7 ⟨[], ∅, none⟩).ids = ∅ ∧
    7 ∉ (overlapToggleTrace 7 ⟨[], ∅, none⟩).ids ∧
    (overlapToggleTrace 7 ⟨[], ∅, none⟩).ids =
      (⟨[], ∅, none⟩ : WatchlistState).ids := by
  refine ⟨by decide, by decide, by decide⟩

/-- C6: when an add-to-watchlist request for a movie not in the membership
set fails, the rollback restores the membership set exactly, the movies list
is untouched, and the error is rethrown to the caller. -/
theorem c6_add_rollback_exact (x : Nat) (st : WatchlistState) (e : HttpErr)
    (hx : x ∉ st.ids) :
    (addToWatchlist x st (.error e)).1.ids = st.ids ∧
    (addToWatchlist x st (.error e)).1.movies = st.movies ∧
    (addToWatchlist x st (.error e)).2 = .error e := by
  refine ⟨?_, rfl, rfl⟩
  simp [addToWatchlist, addOptimistic, addRollback, Finset.erase_insert hx]

/-- C6, witness: movie 7 absent from a one-element watchlist. -/
theorem c6_add_rollback_exact_witness :
    7 ∉ ({3} : Finset Nat) ∧
    ((addToWatchlist 7 ⟨[3], {3}, none⟩ (.error ⟨500, "x"⟩)).1.ids = {3} ∧
      (addToWatchlist 7 ⟨[3], {3}, none⟩ (.error ⟨500, "x"⟩)).1.movies = [3] ∧
      (addToWatchlist 7 ⟨[3], {3}, none⟩ (.error ⟨500, "x"⟩)).2 =
        .error ⟨500, "x"⟩) :=
  ⟨by decide, c6_add_rollback_exact 7 ⟨[3], {3}, none⟩ ⟨500, "x"⟩ (by decide)⟩

/-- C10: a score outside `1..5` makes `rateMovie` set the range error
message, issue no HTTP request, leave the cached ratings map and list
unchanged, and emit a value (not an error) to its subscriber. -/
theorem c10_rate_range (tmdbId : Nat) (score : Int) (st : RatingState)
    (net : Except HttpErr Unit) (h : score < 1 ∨ 5 < score) :
    rateMovie tmdbId score st net =
      ({ st with errorSig := some "Rating must be between 1 and 5" },
        .value, 0) ∧
    (rateMovie tmdbId score st net).1.ratingsMap = st.ratingsMap ∧
    (rateMovie tmdbId score st net).1.userRatings = st.userRatings := by
  have hb : (decide (score < 1) || decide (5 < score)) = true := by
    rcases h with h | h <;> simp [h]
  refine ⟨?_, ?_, ?_⟩ <;> simp [rateMovie, hb]

/-- C10, witness at score 6. -/
theorem c10_rate_range_witness :
    ((6 : Int) < 1 ∨ (5 : Int) < 6) ∧
    (rateMovie 42 6 ⟨[(1, 4)], [(1, 4)], false, none⟩ (.ok ()) =
        ({ userRatings := [(1, 4)], ratingsMap := [(1, 4)], isLoading := false,
           errorSig := some "Rating must be between 1 and 5" : RatingState },
          .value, 0) ∧
      (rateMovie 42 6 ⟨[(1, 4)], [(1, 4)], false, none⟩ (.ok ())).1.ratingsMap =
        [(1, 4)] ∧
      (rateMovie 42 6 ⟨[(1, 4)], [(1, 4)], false, none⟩ (.ok ())).1.userRatings =
        [(1, 4)]) :=
  ⟨by decide, c10_rate_range 42 6 ⟨[(1, 4)], [(1, 4)], false, none⟩ (.ok ())
    (by decide)⟩

/-- A list of waiters contains no network starter. -/
theorem count_start_replicate (n : Nat) :
    List.count RefreshEntry.startNetwork
      (List.replicate n RefreshEntry.waiter) = 0 := by
  induction n with
  | zero => rfl
  | succ k ih =>
      rw [List.replicate_succ, List.count_cons, ih]
      decide

/-- C1, counterexample: two callers, one refresh in total, but the network
call succeeds with an empty access token — the value the service reserves as
its failure sentinel on the subject — so the initiator observes the success
(`some ""`) while the waiter observes a failure (`none`): the waiter does not
receive the terminal outcome of the in-flight operation. -/
theorem c1_counterexample :
    ((roundOutcomes 2 sessionSt 0
        (.ok { access_token := "", refresh_token := some "R2",
               expires_in := 300 })).1.count .startNetwork = 1) ∧
    (roundOutcomes 2 sessionSt 0
        (.ok { access_token := "", refresh_token := some "R2",
               expires_in := 300 })).2.2 = [some "", none] ∧
    (some "" : Option String) ≠ none := by
  refine ⟨by decide, by decide, by decide⟩

/-- C1, amended: for every number of callers N = n + 1 arriving while a
stored refresh token exists and before the single network call completes,
exactly one network refresh request is issued, and — provided a successful
response carries a nonempty access token (the empty string being the failure
sentinel) — every caller observes the same outcome: the new access token on
success, a failure otherwise. -/
theorem c1_single_flight (n : Nat) (st : AuthState) (now : Int) (rt : String)
    (res : Except HttpErr TokenResponse)
    (hrt : st.storedRefresh = some rt) (hfl : st.isRefreshing = false)
    (hne : okTokenNonempty res = true) :
    (roundOutcomes (n + 1) st now res).1 =
        .startNetwork :: List.replicate n .waiter ∧
    ((roundOutcomes (n + 1) st now res).1.count .startNetwork = 1) ∧
    (roundOutcomes (n + 1) st now res).2.2 =
      List.replicate (n + 1)
        (match res with
          | .ok r => some r.access_token
          | .error _ => none) := by
  have hstart := refreshTokenEnter_start st rt hrt hfl
  have hwait := processCallers_inflight n
    { st with isRefreshing := true, subjectVal := none } rt hrt rfl
  have hproc : processCallers (n + 1) st =
      (.startNetwork :: List.replicate n .waiter,
        { st with isRefreshing := true, subjectVal := none }) := by
    simp [processCallers, hstart, hwait]
  refine ⟨?_, ?_, ?_⟩
  · simp [roundOutcomes, hproc]
  · simp [roundOutcomes, hproc, List.count_cons, count_start_replicate]
    decide
  · cases res with
    | ok r =>
        have hr : r.access_token ≠ "" := by
          simpa [okTokenNonempty] using hne
        simp [roundOutcomes, hproc, refreshComplete, storeTokens,
          waiterOutcome, hr, List.map_replicate, List.replicate_succ]
    | error e =>
        simp [roundOutcomes, hproc, refreshComplete, clearAuthState,
          waiterOutcome, List.map_replicate, List.replicate_succ]

/-- C1, witness: three callers on a live session, refresh succeeding with
token "NEW": one network call, all three observe `some "NEW"`. -/
theorem c1_single_flight_witness :
    (sessionSt.storedRefresh = some "RT" ∧ sessionSt.isRefreshing = false ∧
      okTokenNonempty (.ok tokC) = true) ∧
    ((roundOutcomes 3 sessionSt 0 (.ok tokC)).1 =
        .startNetwork :: List.replicate 2 .waiter ∧
      ((roundOutcomes 3 sessionSt 0 (.ok tokC)).1.count .startNetwork = 1) ∧
      (roundOutcomes 3 sessionSt 0 (.ok tokC)).2.2 =
        List.replicate 3 (some "NEW")) :=
  ⟨⟨rfl, rfl, rfl⟩, c1_single_flight 2 sessionSt 0 "RT" (.ok tokC) rfl rfl rfl⟩

/-- C2, counterexample: a watchlist request fails with the original 401
(tag "original"); the refresh network call fails with a different error
(status 500, tag "refresh-failure").  The interceptor clears the session and
propagates the refresh failure, not the original 401. -/
theorem c2_counterexample :
    (handle401 ⟨"/api/movies/9/watchlist", none⟩ ⟨401, "original"⟩ sessionSt 0
        (.error ⟨500, "refresh-failure"⟩) (.ok "unused")).1 =
      .err (.http ⟨500, "refresh-failure"⟩) ∧
    (handle401 ⟨"/api/movies/9/watchlist", none⟩ ⟨401, "original"⟩ sessionSt 0
        (.error ⟨500, "refresh-failure"⟩) (.ok "unused")).1 ≠
      .err (.http ⟨401, "original"⟩) ∧
    (handle401 ⟨"/api/movies/9/watchlist", none⟩ ⟨401, "original"⟩ sessionSt 0
        (.error ⟨500, "refresh-failure"⟩) (.ok "unused")).2.1 = [] ∧
    sessionCleared
      (handle401 ⟨"/api/movies/9/watchlist", none⟩ ⟨401, "original"⟩ sessionSt 0
        (.error ⟨500, "refresh-failure"⟩) (.ok "unused")).2.2 = true := by
  refine ⟨by decide, by decide, by decide, by decide⟩

/-- C2, amended: on a 401 for a non-auth endpoint while a session exists, the
interceptor invokes the refresh operation; if the refresh succeeds it retries
the original request exactly once with the freshly stored access token, and
if the refresh fails it clears the session and propagates the refresh
operation's own error (not necessarily the original 401), with no retry. -/
theorem c2_refresh_retry (req : Req) (error : HttpErr) (st : AuthState)
    (now : Int) (rt : String) (r : TokenResponse) (e : HttpErr)
    (retryRes : Except HttpErr String)
    (h401 : error.status = 401) (hauth : isAuthEndpoint req.url = false)
    (hlog : st.isLoggedIn = true) (hrt : st.storedRefresh = some rt)
    (hfl : st.isRefreshing = false) :
    (handle401 req error st now (.ok r) retryRes).2.1 =
        [{ req with authHeader := some ("Bearer " ++ r.access_token) }] ∧
    (handle401 req error st now (.error e) retryRes).2.1 = [] ∧
    (handle401 req error st now (.error e) retryRes).1 = .err (.http e) ∧
    sessionCleared
      (handle401 req error st now (.error e) retryRes).2.2 = true := by
  have hstart := refreshTokenEnter_start st rt hrt hfl
  refine ⟨?_, ?_, ?_, ?_⟩ <;>
    cases retryRes <;>
      simp [handle401, h401, hauth, hlog, refreshTokenRun, hstart,
        refreshComplete, storeTokens, clearAuthState, jsNull, logoutRun,
        sessionCleared]

/-- C2, witness: concrete 401 on a watchlist request against a live session,
exercised with a successful refresh (one retry with the new bearer token) and
with a failing refresh (no retry, session cleared, refresh error surfaced). -/
theorem c2_refresh_retry_witness :
    ((⟨401, "original"⟩ : HttpErr).status = 401 ∧
      isAuthEndpoint "/api/movies/9/watchlist" = false ∧
      sessionSt.isLoggedIn = true ∧ sessionSt.storedRefresh = some "RT" ∧
      sessionSt.isRefreshing = false) ∧
    ((handle401 ⟨"/api/movies/9/watchlist", none⟩ ⟨401, "original"⟩ sessionSt 0
        (.ok tokC) (.ok "body")).2.1 =
        [{ url := "/api/movies/9/watchlist",
           authHeader := some ("Bearer " ++ "NEW") }] ∧
      (handle401 ⟨"/api/movies/9/watchlist", none⟩ ⟨401, "original"⟩ sessionSt 0
        (.error ⟨500, "rf"⟩) (.ok "body")).2.1 = [] ∧
      (handle401 ⟨"/api/movies/9/watchlist", none⟩ ⟨401, "original"⟩ sessionSt 0
        (.error ⟨500, "rf"⟩) (.ok "body")).1 = .err (.http ⟨500, "rf"⟩) ∧
      sessionCleared
        (handle401 ⟨"/api/movies/9/watchlist", none⟩ ⟨401, "original"⟩ sessionSt 0
          (.error ⟨500, "rf"⟩) (.ok "body")).2.2 = true) :=
  ⟨⟨rfl, by decide, rfl, rfl, rfl⟩,
    c2_refresh_retry ⟨"/api/movies/9/watchlist", none⟩ ⟨401, "original"⟩
      sessionSt 0 "RT" tokC ⟨500, "rf"⟩ (.ok "body") rfl (by decide) rfl rfl rfl⟩

/-- C7, counterexample: restoring a session whose expiry is one hour in the
past issues exactly one refresh call, the refresh succeeds, but the profile
re-fetch that the restore chains after it fails, so the init error handler
clears the session and the final state has `isAuthenticated = false`. -/
theorem c7_counterexample :
    (initializeAuthState bootSt 3600000 (.ok tokC) (.error ⟨500, "net"⟩)).2 =
      1 ∧
    isAuthenticated
      (initializeAuthState bootSt 3600000 (.ok tokC)
        (.error ⟨500, "net"⟩)).1 = false := by
  refine ⟨by decide, by decide⟩

/-- C7, amended: restoring a stored session whose expiry timestamp has passed
first restores the cached profile optimistically (profile in memory, login
flag set), then issues exactly one refresh network call; if that refresh and
the profile re-fetch chained after it both succeed, the final state has
`isAuthenticated = true`. -/
theorem c7_expired_restore (st : AuthState) (now : Int) (a u p rt : String)
    (e : Int) (r : TokenResponse)
    (ha : st.storedAccess = some a) (hu : st.storedProfile = some u)
    (he : st.storedExpiry = some e) (hpast : e ≤ now)
    (hrt : st.storedRefresh = some rt) (hfl : st.isRefreshing = false) :
    (initSync st now).1.currentUser = some u ∧
    (initSync st now).1.isLoggedIn = true ∧
    (initializeAuthState st now (.ok r) (.ok p)).2 = 1 ∧
    isAuthenticated (initializeAuthState st now (.ok r) (.ok p)).1 = true := by
  have hnlt : ¬ now < e := not_lt.mpr hpast
  have hsync : initSync st now =
      ({ st with currentUser := some u, isLoggedIn := true }, .expired) := by
    simp [initSync, ha, hu, he, hnlt]
  have hstart := refreshTokenEnter_start
    { st with currentUser := some u, isLoggedIn := true } rt hrt hfl
  refine ⟨by simp [hsync], by simp [hsync], ?_, ?_⟩ <;>
    simp [initializeAuthState, hsync, initExpiredComplete, refreshTokenRun,
      hstart, refreshComplete, storeTokens, fetchUserProfileRun,
      isAuthenticated]

/-- C7, witness: the boot state with expiry at epoch 0 restored one hour
later, with both the refresh and the profile re-fetch succeeding. -/
theorem c7_expired_restore_witness :
    (bootSt.storedAccess = some "AT" ∧ bootSt.storedProfile = some "alice" ∧
      bootSt.storedExpiry = some 0 ∧ (0 : Int) ≤ 3600000 ∧
      bootSt.storedRefresh = some "RT" ∧ bootSt.isRefreshing = false) ∧
    ((initSync bootSt 3600000).1.currentUser = some "alice" ∧
      (initSync bootSt 3600000).1.isLoggedIn = true ∧
      (initializeAuthState bootSt 3600000 (.ok tokC) (.ok "alice2")).2 = 1 ∧
      isAuthenticated
        (initializeAuthState bootSt 3600000 (.ok tokC) (.ok "alice2")).1 =
          true) :=
  ⟨⟨rfl, rfl, rfl, by decide, rfl, rfl⟩,
    c7_expired_restore bootSt 3600000 "AT" "alice" "alice2" "RT" 0 tokC
      rfl rfl rfl (by decide) rfl rfl⟩

/-- C8, counterexample: `/api/movies/trending` is classified public, yet a
request to it issued while an access token is stored carries no
Authorization header — the interceptor attaches the bearer header only to
non-public endpoints. -/
theorem c8_counterexample :
    isPublic "/api/movies/trending" = true ∧
    (interceptRequest ⟨"/api/movies/trending", none⟩
        (some "AT")).authHeader = none := by
  refine ⟨by decide, by decide⟩

/-- C8, amended: a request to a path classified public is never given an
Authorization header by the interceptor: it is forwarded unchanged both when
no session exists and when an access token is stored (the bearer header is
attached only to non-public paths). -/
theorem c8_public_no_header (url : String) (h t : Option String)
    (hp : isPublic url = true) :
    (interceptRequest ⟨url, h⟩ none).authHeader = h ∧
    (interceptRequest ⟨url, h⟩ t).authHeader = h := by
  cases t with
  | none => exact ⟨rfl, rfl⟩
  | some s => exact ⟨rfl, by simp [interceptRequest, hp]⟩

/-- C8, witness at the public trending path with token "AT". -/
theorem c8_public_no_header_witness :
    isPublic "/api/movies/trending" = true ∧
    ((interceptRequest ⟨"/api/movies/trending", none⟩ none).authHeader =
        none ∧
      (interceptRequest ⟨"/api/movies/trending", none⟩
          (some "AT")).authHeader = none) :=
  ⟨by decide, c8_public_no_header "/api/movies/trending" none (some "AT")
    (by decide)⟩

/-- C9, counterexample: the state reached right after startup restoration of
a stored session whose expiry (epoch 0) is one hour in the past has
`isAuthenticated = true` while the access token is expired — the derived flag
consults only the login flag and the cached profile, not the expiry. -/
theorem c9_counterexample :
    isAuthenticated (initSync bootSt 3600000).1 = true ∧
    isTokenExpired (initSync bootSt 3600000).1 3600000 = true := by
  refine ⟨by decide, by decide⟩

/-- C9, amended: `isAuthenticated` is derived from the login flag and the
presence of a cached profile only.  After the optimistic restore of an
expired stored session it is true while the stored expiry is in the past,
and it turns false (the session is cleared) when the refresh chained by the
restore fails. -/
theorem c9_auth_flag (st : AuthState) (now : Int) (a u : String) (e : Int)
    (err : HttpErr) (netP : Except HttpErr String)
    (ha : st.storedAccess = some a) (hu : st.storedProfile = some u)
    (he : st.storedExpiry = some e) (hpast : e ≤ now)
    (hfl : st.isRefreshing = false) :
    isAuthenticated (initSync st now).1 = true ∧
    isTokenExpired (initSync st now).1 now = true ∧
    isAuthenticated
      (initializeAuthState st now (.error err) netP).1 = false := by
  have hnlt : ¬ now < e := not_lt.mpr hpast
  have hsync : initSync st now =
      ({ st with currentUser := some u, isLoggedIn := true }, .expired) := by
    simp [initSync, ha, hu, he, hnlt]
  refine ⟨by simp [hsync, isAuthenticated],
    by simp [hsync, isTokenExpired, he, hpast], ?_⟩
  rcases hr : st.storedRefresh with _ | rt
  · simp [initializeAuthState, hsync, initExpiredComplete, refreshTokenRun,
      refreshTokenEnter, hr, clearAuthState, isAuthenticated]
  · have hstart := refreshTokenEnter_start
      { st with currentUser := some u, isLoggedIn := true } rt hr hfl
    simp [initializeAuthState, hsync, initExpiredComplete, refreshTokenRun,
      hstart, refreshComplete, clearAuthState, isAuthenticated]

/-- C9, witness: the boot state restored one hour after its expiry, with the
chained refresh failing. -/
theorem c9_auth_flag_witness :
    (bootSt.storedAccess = some "AT" ∧ bootSt.storedProfile = some "alice" ∧
      bootSt.storedExpiry = some 0 ∧ (0 : Int) ≤ 3600000 ∧
      bootSt.isRefreshing = false) ∧
    (isAuthenticated (initSync bootSt 3600000).1 = true ∧
      isTokenExpired (initSync bootSt 3600000).1 3600000 = true ∧
      isAuthenticated
        (initializeAuthState bootSt 3600000 (.error ⟨500, "down"⟩)
          (.ok "alice2")).1 = false) :=
  ⟨⟨rfl, rfl, rfl, by decide, rfl⟩,
    c9_auth_flag bootSt 3600000 "AT" "alice" 0 ⟨500, "down"⟩ (.ok "alice2")
      rfl rfl rfl (by decide) rfl⟩

end MovieApp
